import Mathlib

/-!
Verification of the PWA-Game-for-Stella card-management toolchain.

The development shallowly embeds the three Python source files
(`admin-server.py`, `scripts/process-face-card.py`,
`scripts/process-number-card.py`).  Pure computations become Lean
functions; the catalog file, the uploads directory and the processed
directory become explicit state; the single outbound HTTP request of the
Cloudflare uploader is modelled by a counter of issued requests together
with the (parsed) response the service would return; the fresh random
128-bit identifier drawn by `uuid.uuid4()` is an explicit `Nat` argument.
-/

/-! ## Card catalog data model (`data/cards.json`) -/

/-- A catalog record, as built by every publish path:
`{"id": ..., "word": ..., "imageUrl": ..., "type": ...}`. -/
structure Card where
  id : String
  word : String
  imageUrl : String
  type : String
deriving Repr, DecidableEq

/-- The top-level catalog document `{"cards": [...]}`. -/
structure Catalog where
  cards : List Card
deriving Repr, DecidableEq

/-- Embedding of `load_cards` (identical in all three scripts): the file
state is `some` catalog when `data/cards.json` exists; a missing file
yields the empty catalog. -/
def load_cards (file : Option Catalog) : Catalog :=
  file.getD ⟨[]⟩

/-! ## Python string primitives

The Python methods `str.lower`, `str.upper` and `str.strip` used by the
sources are modelled character-wise over the string's character list
(`str.strip` removes ASCII whitespace from both ends). -/

/-- Python `str.lower()` (exact on the ASCII range). -/
def pyLower (s : String) : String :=
  ⟨s.data.map Char.toLower⟩

/-- Python `str.upper()` (exact on the ASCII range). -/
def pyUpper (s : String) : String :=
  ⟨s.data.map Char.toUpper⟩

/-- The characters Python `str.strip()` removes. -/
def pySpace (c : Char) : Bool :=
  c = ' ' || c = '\t' || c = '\n' || c = '\x0d' || c = '\x0b' || c = '\x0c'

/-- Python `str.strip()`: drop whitespace from both ends. -/
def pyStrip (s : String) : String :=
  ⟨(((s.data.dropWhile pySpace).reverse.dropWhile pySpace).reverse : List Char)⟩

/-! ## Card ID generation

`generate_card_id` computes `str(uuid.uuid4())[:8]`: the canonical string
of a random 128-bit UUID is its 32 lower-case hex digits in groups of
8-4-4-4-12 separated by hyphens, and the first 8 characters are kept. -/

/-- Fixed-width lower-case hexadecimal rendering of `n` (the first `width`
hex digits, most significant first), as produced by a zero-padded
hex format for values below `16 ^ width`. -/
def hexChars (width n : Nat) : List Char :=
  (List.range width).map (fun i => Nat.digitChar (n / 16 ^ (width - 1 - i) % 16))

/-- The canonical 36-character string of a 128-bit UUID whose integer
value is `u % 2 ^ 128` (groups of 8-4-4-4-12 hex digits). -/
def uuid4String (u : Nat) : String :=
  let v := u % 2 ^ 128
  String.mk (hexChars 8 (v / 2 ^ 96)) ++ "-" ++
    String.mk (hexChars 4 (v / 2 ^ 80 % 16 ^ 4)) ++ "-" ++
    String.mk (hexChars 4 (v / 2 ^ 64 % 16 ^ 4)) ++ "-" ++
    String.mk (hexChars 4 (v / 2 ^ 48 % 16 ^ 4)) ++ "-" ++
    String.mk (hexChars 12 (v % 16 ^ 12))

/-- Python slicing `[:8]` on the UUID string: its first 8 characters. -/
def uuidFirst8 (u : Nat) : String :=
  String.mk ((uuid4String u).data.take 8)

/-- Embedding of `generate_card_id(word, card_type)` from `admin-server.py`
(lines 86-90); `u` is the freshly drawn random 128-bit identifier. -/
def generate_card_id (word card_type : String) (u : Nat) : String :=
  (if card_type = "face" then "face-" else "") ++ pyLower word ++ "-" ++ uuidFirst8 u

/-- Embedding of `generate_card_id(word)` from `scripts/process-face-card.py`
(lines 80-83). -/
def generate_card_id_face (word : String) (u : Nat) : String :=
  "face-" ++ pyLower word ++ "-" ++ uuidFirst8 u

/-- Embedding of `generate_card_id(word)` from
`scripts/process-number-card.py` (lines 108-111). -/
def generate_card_id_number (word : String) (u : Nat) : String :=
  pyLower word ++ "-" ++ uuidFirst8 u

/-! ## The id format regular expressions

`matchesNumberCardIdL` decides membership in `^[a-z0-9]+-[0-9a-f]{8}$`:
since a hyphen belongs to neither character class, a string matches
exactly when its length `n` is at least 10, its first `n - 9` characters
are a non-empty run of `[a-z0-9]`, the next character is the hyphen and
the final 8 characters are lower-case hex digits. -/

/-- Membership in the character class `[a-z0-9]`. -/
def isLowerAlnum (c : Char) : Bool :=
  ('a' ≤ c && c ≤ 'z') || ('0' ≤ c && c ≤ '9')

/-- Membership in the character class `[0-9a-f]`. -/
def isLowerHexDigit (c : Char) : Bool :=
  ('0' ≤ c && c ≤ '9') || ('a' ≤ c && c ≤ 'f')

/-- Decides `^[a-z0-9]+-[0-9a-f]{8}$` on a character list. -/
def matchesNumberCardIdL (cs : List Char) : Bool :=
  let n := cs.length
  decide (10 ≤ n) && !(cs.take (n - 9)).isEmpty && (cs.take (n - 9)).all isLowerAlnum &&
    (cs.drop (n - 9)).take 1 == ['-'] && ((cs.drop (n - 9)).drop 1).all isLowerHexDigit

/-- Decides `^[a-z0-9]+-[0-9a-f]{8}$` on a string. -/
def matchesNumberCardId (s : String) : Bool :=
  matchesNumberCardIdL s.data

/-- Decides `^face-[a-z0-9]+-[0-9a-f]{8}$` on a string: the literal
prefix `face-` followed by a match of the number-card pattern. -/
def matchesFaceCardId (s : String) : Bool :=
  s.data.take 5 == "face-".data && matchesNumberCardIdL (s.data.drop 5)

/-! ### Auxiliary facts about the random fragment -/

theorem hexChars_length (width n : Nat) : (hexChars width n).length = width := by
  simp [hexChars]

theorem isLowerHexDigit_digitChar (m : Nat) :
    isLowerHexDigit (Nat.digitChar (m % 16)) = true := by
  have h : m % 16 < 16 := Nat.mod_lt _ (by decide)
  set r := m % 16 with hr
  interval_cases r <;> decide

theorem hexChars_all_hex (width n : Nat) :
    ∀ c ∈ hexChars width n, isLowerHexDigit c = true := by
  intro c hc
  simp only [hexChars, List.mem_map] at hc
  obtain ⟨i, _, rfl⟩ := hc
  exact isLowerHexDigit_digitChar _

theorem uuidFirst8_data (u : Nat) :
    (uuidFirst8 u).data = hexChars 8 (u % 2 ^ 128 / 2 ^ 96) := by
  have h8 : (hexChars 8 (u % 2 ^ 128 / 2 ^ 96)).length = 8 := hexChars_length 8 _
  simp only [uuidFirst8, uuid4String, String.data_append]
  exact List.take_left' h8

theorem uuidFirst8_length (u : Nat) : (uuidFirst8 u).data.length = 8 := by
  rw [uuidFirst8_data]; exact hexChars_length 8 _

theorem uuidFirst8_all_hex (u : Nat) :
    ∀ c ∈ (uuidFirst8 u).data, isLowerHexDigit c = true := by
  rw [uuidFirst8_data]; exact hexChars_all_hex 8 _

/-- Core format fact: a string of shape `body ++ "-" ++ frag` with a
non-empty `[a-z0-9]` body and an 8-character hex fragment matches the
number-card pattern. -/
theorem matchesNumberCardIdL_of_decomp (w frag : List Char)
    (hw : w ≠ []) (hall : ∀ c ∈ w, isLowerAlnum c = true)
    (hf8 : frag.length = 8) (hfh : ∀ c ∈ frag, isLowerHexDigit c = true) :
    matchesNumberCardIdL (w ++ '-' :: frag) = true := by
  have hn : (w ++ '-' :: frag).length = w.length + 9 := by
    simp [List.length_append, hf8]
  have hw1 : 1 ≤ w.length := by
    cases w with
    | nil => exact absurd rfl hw
    | cons a l => exact Nat.succ_le_succ (Nat.zero_le _)
  have hsub : (w ++ '-' :: frag).length - 9 = w.length := by omega
  have htake : (w ++ '-' :: frag).take w.length = w := List.take_left' rfl
  have hdrop : (w ++ '-' :: frag).drop w.length = '-' :: frag := List.drop_left' rfl
  simp only [matchesNumberCardIdL, hsub, htake, hdrop]
  refine (Bool.and_eq_true _ _).mpr ⟨(Bool.and_eq_true _ _).mpr
    ⟨(Bool.and_eq_true _ _).mpr ⟨(Bool.and_eq_true _ _).mpr ⟨?_, ?_⟩, ?_⟩, ?_⟩, ?_⟩
  · rw [hn]; simp; omega
  · simp [List.isEmpty_iff, hw]
  · exact List.all_eq_true.mpr hall
  · rfl
  · exact List.all_eq_true.mpr hfh

/-- Helper: the id produced for a non-face card type decomposes as
`word-lowercase ++ "-" ++ fragment` at the character level. -/
theorem generate_card_id_number_data (word : String) (u : Nat) :
    (generate_card_id word "number" u).data =
      (pyLower word).data ++ '-' :: (uuidFirst8 u).data := by
  simp [generate_card_id, String.data_append]

/-- Helper: the id produced for a face card decomposes as
`"face-" ++ word-lowercase ++ "-" ++ fragment` at the character level. -/
theorem generate_card_id_face_data (word : String) (u : Nat) :
    (generate_card_id word "face" u).data =
      "face-".data ++ ((pyLower word).data ++ '-' :: (uuidFirst8 u).data) := by
  simp [generate_card_id, String.data_append]

/-- C1 (amended).  For every word and card type `generate_card_id` returns
the optional `face-` prefix (present exactly when the type is `face`)
followed by the lowercased word, a hyphen, and the first 8 hex characters
of the fresh random 128-bit identifier; and whenever the lowercased word
is non-empty and consists only of characters from `[a-z0-9]`, the
generated number-card id matches `^[a-z0-9]+-[0-9a-f]{8}$` and the
generated face-card id matches `^face-[a-z0-9]+-[0-9a-f]{8}$`. -/
theorem generate_card_id_format (word : String) (u : Nat)
    (h1 : pyLower word ≠ "")
    (h2 : (pyLower word).data.all isLowerAlnum = true) :
    (∀ ct, generate_card_id word ct u =
      (if ct = "face" then "face-" else "") ++ pyLower word ++ "-" ++ uuidFirst8 u) ∧
    matchesNumberCardId (generate_card_id word "number" u) = true ∧
    matchesFaceCardId (generate_card_id word "face" u) = true := by
  have hw : (pyLower word).data ≠ [] := by
    intro h
    exact h1 (String.ext (h.trans rfl))
  have hall : ∀ c ∈ (pyLower word).data, isLowerAlnum c = true := List.all_eq_true.mp h2
  have hcore : matchesNumberCardIdL ((pyLower word).data ++ '-' :: (uuidFirst8 u).data) = true :=
    matchesNumberCardIdL_of_decomp _ _ hw hall (uuidFirst8_length u) (uuidFirst8_all_hex u)
  refine ⟨fun ct => rfl, ?_, ?_⟩
  · rw [matchesNumberCardId, generate_card_id_number_data]
    exact hcore
  · have h5 : ("face-".data : List Char).length = 5 := rfl
    rw [matchesFaceCardId, generate_card_id_face_data,
      List.take_left' h5, List.drop_left' h5]
    simp [hcore]

/-- C1 (counterexample to the claim as stated): for the empty word the
generated number-card id is just `"-"` followed by the fragment, which
does not match `^[a-z0-9]+-[0-9a-f]{8}$`. -/
theorem generate_card_id_regex_counterexample :
    generate_card_id "" "number" 0 = "-00000000" ∧
    matchesNumberCardId (generate_card_id "" "number" 0) = false := by
  constructor
  · rfl
  · rfl

/-- C1 witness: the amended theorem applied to the word `"STELLA"`. -/
theorem generate_card_id_format_witness :
    matchesNumberCardId (generate_card_id "STELLA" "number" 0) = true ∧
    matchesFaceCardId (generate_card_id "STELLA" "face" 0) = true :=
  ⟨(generate_card_id_format "STELLA" 0 (by decide) (by decide)).2.1,
   (generate_card_id_format "STELLA" 0 (by decide) (by decide)).2.2⟩

/-! ## Cloud image publisher (`upload_to_cloudflare`, three copies)

The process environment is a record of the three optional variables the
sources read.  The single `requests.post` call is modelled by a counter
of issued outbound requests (first component of the result) together
with the response the service would return, given as an argument: a
status code, the raw body text, and the parsed JSON fields the sources
inspect (`success`, `errors`, `result.id`, `result.variants`). -/

/-- The process environment visible to `os.environ.get`. -/
structure Env where
  cloudflareAccountId : Option String
  cloudflareApiToken : Option String
  cloudflareDeliveryHash : Option String
deriving Repr, DecidableEq

/-- Python truthiness of an `os.environ.get` result: `None` and the empty
string are falsy. -/
def truthy : Option String → Bool
  | none => false
  | some s => !s.isEmpty

/-- The upload response of the hosting service, as the sources consume it. -/
structure HttpResponse where
  statusCode : Nat
  text : String
  success : Bool
  errors : String
  resultId : String
  resultVariants : List String
deriving Repr, DecidableEq

/-- Outcome of one `upload_to_cloudflare` call: the configuration
`ValueError`, the upload-failure `Exception`, or the derived URL. -/
inductive UploadResult where
  | missingConfig (msg : String)
  | uploadFailed (msg : String)
  | success (url : String)
deriving Repr, DecidableEq

/-- Embedding of `upload_to_cloudflare` from `admin-server.py` (lines
51-83): Variant A URL derivation via the fixed
`https://imagedelivery.net/<delivery-hash>/<image-id>/medium` template. -/
def upload_to_cloudflare (env : Env) (resp : HttpResponse) : Nat × UploadResult :=
  if !truthy env.cloudflareAccountId || !truthy env.cloudflareApiToken then
    (0, .missingConfig "CLOUDFLARE_ACCOUNT_ID and CLOUDFLARE_API_TOKEN must be set")
  else if resp.statusCode ≠ 200 then
    (1, .uploadFailed ("Cloudflare upload failed: " ++ resp.text))
  else if !resp.success then
    (1, .uploadFailed ("Cloudflare upload failed: " ++ resp.errors))
  else
    let image_id := resp.resultId
    let delivery_hash := env.cloudflareDeliveryHash.getD "3oZsG34qPq3SIXQhl47vqA"
    (1, .success ("https://imagedelivery.net/" ++ delivery_hash ++ "/" ++ image_id ++ "/medium"))

/-- Embedding of `upload_to_cloudflare` from `scripts/process-face-card.py`
(lines 43-77): Variant B URL derivation, `variants[0]` when available and
otherwise the `public` template built from the account id. -/
def upload_to_cloudflare_face (env : Env) (resp : HttpResponse) : Nat × UploadResult :=
  if !truthy env.cloudflareAccountId || !truthy env.cloudflareApiToken then
    (0, .missingConfig "CLOUDFLARE_ACCOUNT_ID and CLOUDFLARE_API_TOKEN must be set")
  else if resp.statusCode ≠ 200 then
    (1, .uploadFailed ("Cloudflare upload failed: " ++ resp.text))
  else if !resp.success then
    (1, .uploadFailed ("Cloudflare upload failed: " ++ resp.errors))
  else
    let image_id := resp.resultId
    (1, .success (match resp.resultVariants with
      | v :: _ => v
      | [] => "https://imagedelivery.net/" ++ env.cloudflareAccountId.getD "" ++ "/" ++
          image_id ++ "/public"))

/-- Embedding of `upload_to_cloudflare` from
`scripts/process-number-card.py` (lines 66-105): identical Variant B URL
derivation (the two scripts differ only in how the image bytes are read,
which happens after the configuration gate and is opaque here). -/
def upload_to_cloudflare_number (env : Env) (resp : HttpResponse) : Nat × UploadResult :=
  if !truthy env.cloudflareAccountId || !truthy env.cloudflareApiToken then
    (0, .missingConfig "CLOUDFLARE_ACCOUNT_ID and CLOUDFLARE_API_TOKEN must be set")
  else if resp.statusCode ≠ 200 then
    (1, .uploadFailed ("Cloudflare upload failed: " ++ resp.text))
  else if !resp.success then
    (1, .uploadFailed ("Cloudflare upload failed: " ++ resp.errors))
  else
    let image_id := resp.resultId
    (1, .success (match resp.resultVariants with
      | v :: _ => v
      | [] => "https://imagedelivery.net/" ++ env.cloudflareAccountId.getD "" ++ "/" ++
          image_id ++ "/public"))

/-- C2.  Variant B URL derivation in both CLI scripts: on a successful
upload response, a non-empty `variants` array yields exactly its first
entry, and an empty `variants` array yields
`https://imagedelivery.net/<account_id>/<image_id>/public` built from the
account identifier and the fixed variant name `public`. -/
theorem upload_variantB_url (env : Env) (resp : HttpResponse)
    (ha : truthy env.cloudflareAccountId = true)
    (ht : truthy env.cloudflareApiToken = true)
    (hs : resp.statusCode = 200) (hok : resp.success = true) :
    (∀ v vs, resp.resultVariants = v :: vs →
      (upload_to_cloudflare_face env resp).2 = .success v ∧
      (upload_to_cloudflare_number env resp).2 = .success v) ∧
    (resp.resultVariants = [] →
      (upload_to_cloudflare_face env resp).2 = .success
        ("https://imagedelivery.net/" ++ env.cloudflareAccountId.getD "" ++ "/" ++
          resp.resultId ++ "/public") ∧
      (upload_to_cloudflare_number env resp).2 = .success
        ("https://imagedelivery.net/" ++ env.cloudflareAccountId.getD "" ++ "/" ++
          resp.resultId ++ "/public")) := by
  constructor
  · intro v vs hv
    constructor <;>
      simp [upload_to_cloudflare_face, upload_to_cloudflare_number, ha, ht, hs, hok, hv]
  · intro hv
    constructor <;>
      simp [upload_to_cloudflare_face, upload_to_cloudflare_number, ha, ht, hs, hok, hv]

/-- C2 witness: with a mocked response carrying
`variants: ["https://img.example/abc/public"]` both scripts return that
exact URL, and with an empty `variants` array both fall back to the
account-id template. -/
theorem upload_variantB_url_witness :
    (upload_to_cloudflare_face ⟨some "acct42", some "tok", none⟩
        ⟨200, "", true, "", "img7", ["https://img.example/abc/public"]⟩).2 =
      .success "https://img.example/abc/public" ∧
    (upload_to_cloudflare_number ⟨some "acct42", some "tok", none⟩
        ⟨200, "", true, "", "img7", []⟩).2 =
      .success "https://imagedelivery.net/acct42/img7/public" := by
  constructor
  · exact ((upload_variantB_url ⟨some "acct42", some "tok", none⟩
      ⟨200, "", true, "", "img7", ["https://img.example/abc/public"]⟩
      rfl rfl rfl rfl).1 _ _ rfl).1
  · have h := ((upload_variantB_url ⟨some "acct42", some "tok", none⟩
      ⟨200, "", true, "", "img7", []⟩ rfl rfl rfl rfl).2 rfl).2
    exact h.trans (congrArg UploadResult.success (by decide))

/-- C4.  Configuration gate: whenever the account-identifier or the
API-credential environment variable is absent, each of the three
uploader copies fails with the missing-configuration error and issues no
outbound request (the request counter is 0). -/
theorem upload_config_gate (env : Env) (resp : HttpResponse)
    (h : env.cloudflareAccountId = none ∨ env.cloudflareApiToken = none) :
    upload_to_cloudflare env resp =
      (0, .missingConfig "CLOUDFLARE_ACCOUNT_ID and CLOUDFLARE_API_TOKEN must be set") ∧
    upload_to_cloudflare_face env resp =
      (0, .missingConfig "CLOUDFLARE_ACCOUNT_ID and CLOUDFLARE_API_TOKEN must be set") ∧
    upload_to_cloudflare_number env resp =
      (0, .missingConfig "CLOUDFLARE_ACCOUNT_ID and CLOUDFLARE_API_TOKEN must be set") := by
  rcases h with h | h <;>
    refine ⟨?_, ?_, ?_⟩ <;>
      simp [upload_to_cloudflare, upload_to_cloudflare_face, upload_to_cloudflare_number,
        truthy, h]

/-- C4 witness: the gate applied with the account identifier unset. -/
theorem upload_config_gate_witness :
    upload_to_cloudflare ⟨none, some "tok", none⟩ ⟨200, "", true, "", "img7", []⟩ =
      (0, .missingConfig "CLOUDFLARE_ACCOUNT_ID and CLOUDFLARE_API_TOKEN must be set") :=
  (upload_config_gate ⟨none, some "tok", none⟩ ⟨200, "", true, "", "img7", []⟩
    (Or.inl rfl)).1

/-- C7.  Variant A URL derivation in the admin server: on a successful
upload response the URL is always
`https://imagedelivery.net/<delivery-hash>/<image-id>/medium`, with the
delivery hash taken from `CLOUDFLARE_DELIVERY_HASH` or the literal
default `3oZsG34qPq3SIXQhl47vqA` when unset, irrespective of the
`variants` array of the response. -/
theorem upload_variantA_url (env : Env) (resp : HttpResponse)
    (ha : truthy env.cloudflareAccountId = true)
    (ht : truthy env.cloudflareApiToken = true)
    (hs : resp.statusCode = 200) (hok : resp.success = true) :
    (upload_to_cloudflare env resp).2 = .success
      ("https://imagedelivery.net/" ++
        env.cloudflareDeliveryHash.getD "3oZsG34qPq3SIXQhl47vqA" ++ "/" ++
        resp.resultId ++ "/medium") ∧
    (∀ vs, upload_to_cloudflare env { resp with resultVariants := vs } =
      upload_to_cloudflare env resp) := by
  constructor
  · simp [upload_to_cloudflare, ha, ht, hs, hok]
  · intro vs
    simp [upload_to_cloudflare, ha, ht, hs, hok]

/-- C7 witness: with `CLOUDFLARE_DELIVERY_HASH` unset and a response
carrying a non-empty `variants` array, the admin server still derives the
hard-coded default-hash `medium` URL. -/
theorem upload_variantA_url_witness :
    (upload_to_cloudflare ⟨some "acct42", some "tok", none⟩
        ⟨200, "", true, "", "img7", ["https://img.example/abc/public"]⟩).2 =
      .success "https://imagedelivery.net/3oZsG34qPq3SIXQhl47vqA/img7/medium" := by
  have h := (upload_variantA_url ⟨some "acct42", some "tok", none⟩
    ⟨200, "", true, "", "img7", ["https://img.example/abc/public"]⟩ rfl rfl rfl rfl).1
  exact h.trans (congrArg UploadResult.success (by decide))

/-! ## CLI scripts: the confirmation step and what follows it

Both scripts read the operator's answer, strip it and lower-case it, and
cancel with `sys.exit(0)` unless it equals `"yes"`; on confirmation they
generate an id, upload, append to the catalog and save.  The model
covers `main` from the prompt onward: `answer` is the operator's input,
`word` the already upper-cased word argument, `dataFile` the catalog
file state at the prompt.  An exception escaping the upload terminates
the process with exit status 1. -/

/-- Observable effects of one CLI run from the confirmation prompt on. -/
structure CliRun where
  networkCalls : Nat
  savedCatalogs : List Catalog
  finalDataFile : Option Catalog
  exitCode : Nat
deriving Repr, DecidableEq

/-- Embedding of `main` of `scripts/process-face-card.py` from the
confirmation prompt (lines 110-138). -/
def face_main_confirm (answer word : String) (u : Nat) (env : Env)
    (resp : HttpResponse) (dataFile : Option Catalog) : CliRun :=
  if pyLower (pyStrip answer) ≠ "yes" then
    { networkCalls := 0, savedCatalogs := [], finalDataFile := dataFile, exitCode := 0 }
  else
    let card_id := generate_card_id_face word u
    match upload_to_cloudflare_face env resp with
    | (n, .success url) =>
      let cards_data := load_cards dataFile
      let new_card : Card := ⟨card_id, word, url, "face"⟩
      let updated : Catalog := ⟨cards_data.cards ++ [new_card]⟩
      { networkCalls := n, savedCatalogs := [updated],
        finalDataFile := some updated, exitCode := 0 }
    | (n, .missingConfig _) =>
      { networkCalls := n, savedCatalogs := [], finalDataFile := dataFile, exitCode := 1 }
    | (n, .uploadFailed _) =>
      { networkCalls := n, savedCatalogs := [], finalDataFile := dataFile, exitCode := 1 }

/-- Embedding of `main` of `scripts/process-number-card.py` from the
confirmation prompt (lines 152-180); the preview file written before the
prompt is not part of this fragment. -/
def number_main_confirm (answer word : String) (u : Nat) (env : Env)
    (resp : HttpResponse) (dataFile : Option Catalog) : CliRun :=
  if pyLower (pyStrip answer) ≠ "yes" then
    { networkCalls := 0, savedCatalogs := [], finalDataFile := dataFile, exitCode := 0 }
  else
    let card_id := generate_card_id_number word u
    match upload_to_cloudflare_number env resp with
    | (n, .success url) =>
      let cards_data := load_cards dataFile
      let new_card : Card := ⟨card_id, word, url, "number"⟩
      let updated : Catalog := ⟨cards_data.cards ++ [new_card]⟩
      { networkCalls := n, savedCatalogs := [updated],
        finalDataFile := some updated, exitCode := 0 }
    | (n, .missingConfig _) =>
      { networkCalls := n, savedCatalogs := [], finalDataFile := dataFile, exitCode := 1 }
    | (n, .uploadFailed _) =>
      { networkCalls := n, savedCatalogs := [], finalDataFile := dataFile, exitCode := 1 }

/-- C5.  CLI cancellation is a no-op: in both scripts, any answer whose
stripped, lower-cased form is not exactly `"yes"` performs no upload,
writes nothing, leaves the catalog file exactly as it was, and exits
with status 0. -/
theorem cli_cancel_noop (answer word : String) (u : Nat) (env : Env)
    (resp : HttpResponse) (dataFile : Option Catalog)
    (h : pyLower (pyStrip answer) ≠ "yes") :
    face_main_confirm answer word u env resp dataFile =
      { networkCalls := 0, savedCatalogs := [], finalDataFile := dataFile, exitCode := 0 } ∧
    number_main_confirm answer word u env resp dataFile =
      { networkCalls := 0, savedCatalogs := [], finalDataFile := dataFile, exitCode := 0 } := by
  constructor <;> simp [face_main_confirm, number_main_confirm, h]

/-- C5 witness: answering `" No "` cancels both scripts cleanly on a
concrete catalog state. -/
theorem cli_cancel_noop_witness :
    face_main_confirm " No " "KING" 0 ⟨some "acct42", some "tok", none⟩
        ⟨200, "", true, "", "img7", []⟩ (some ⟨[⟨"dog-00000000", "DOG", "u", "number"⟩]⟩) =
      { networkCalls := 0, savedCatalogs := [],
        finalDataFile := some ⟨[⟨"dog-00000000", "DOG", "u", "number"⟩]⟩, exitCode := 0 } ∧
    number_main_confirm " No " "KING" 0 ⟨some "acct42", some "tok", none⟩
        ⟨200, "", true, "", "img7", []⟩ (some ⟨[⟨"dog-00000000", "DOG", "u", "number"⟩]⟩) =
      { networkCalls := 0, savedCatalogs := [],
        finalDataFile := some ⟨[⟨"dog-00000000", "DOG", "u", "number"⟩]⟩, exitCode := 0 } :=
  cli_cancel_noop " No " "KING" 0 ⟨some "acct42", some "tok", none⟩
    ⟨200, "", true, "", "img7", []⟩ (some ⟨[⟨"dog-00000000", "DOG", "u", "number"⟩]⟩)
    (by decide)

/-! ## JSON values and the admin server state

Request fields and response bodies of the admin API are JSON values.
The server's mutable surroundings are the catalog file, a log of catalog
writes (`save_cards` calls), and the names present in the `uploads/` and
`processed/` directories. -/

/-- A JSON value, as handled by the endpoints. -/
inductive Json where
  | str (s : String)
  | num (n : Int)
  | bool (b : Bool)
  | null
  | arr (elems : List Json)
  | obj (fields : List (String × Json))

/-- The JSON object a card record is serialized to, with the key
insertion order used by every publish path. -/
def cardToJson (c : Card) : Json :=
  .obj [("id", .str c.id), ("word", .str c.word),
    ("imageUrl", .str c.imageUrl), ("type", .str c.type)]

/-- The `{"cards": [...]}` document `save_cards` writes. -/
def catalogToJson (d : Catalog) : Json :=
  .obj [("cards", .arr (d.cards.map cardToJson))]

/-- The admin server's observable state. -/
structure AdminState where
  dataFile : Option Catalog
  writeLog : List Catalog
  uploads : List String
  processed : List String
deriving Repr, DecidableEq

/-- Embedding of `save_cards` in `admin-server.py`: overwrite the catalog
file and record the write. -/
def save_cards (d : Catalog) (st : AdminState) : AdminState :=
  { st with dataFile := some d, writeLog := st.writeLog ++ [d] }

/-- The result of one request: a JSON response with a status code, or an
exception escaping the handler. -/
inductive HandlerOutcome where
  | response (status : Nat) (body : Json)
  | uncaughtException (msg : String)

/-- Discriminator: did the handler raise rather than respond? -/
def HandlerOutcome.isUncaught : HandlerOutcome → Bool
  | .uncaughtException _ => true
  | .response _ _ => false

/-! ## Python coercion primitives used by `process_number_card` -/

/-- Value of a non-empty all-digit character run. -/
def pyDigitsVal (ds : List Char) : Option Nat :=
  if ds.isEmpty then none
  else ds.foldl
    (fun acc c => acc.bind (fun a =>
      if c.isDigit then some (10 * a + (c.toNat - 48)) else none))
    (some 0)

/-- Python `int(str)`: strip whitespace, optional sign, decimal digits;
anything else raises `ValueError` (`none`). -/
def pyIntOfString (s : String) : Option Int :=
  match (pyStrip s).data with
  | '-' :: ds => (pyDigitsVal ds).map (fun n => -(n : Int))
  | '+' :: ds => (pyDigitsVal ds).map (fun n => (n : Int))
  | ds => (pyDigitsVal ds).map (fun n => (n : Int))

/-- Python `int(x)` on a JSON value: integers pass through, booleans are
0 or 1, strings are parsed, everything else raises (`none`). -/
def pyInt : Json → Option Int
  | .num n => some n
  | .bool b => some (if b then 1 else 0)
  | .str s => pyIntOfString s
  | _ => none

/-- A JSON value used as a path component: only strings are accepted,
anything else raises a `TypeError` (`none`). -/
def pyStr : Json → Option String
  | .str s => some s
  | _ => none

/-- Python `x.upper()` on a JSON value: only strings have the attribute,
anything else raises an `AttributeError` (`none`). -/
def pyUpperAttr : Json → Option String
  | .str s => some (pyUpper s)
  | _ => none

/-! ## Admin endpoints -/

/-- The JSON body of a `POST /api/process-number-card` request; a field
is `none` when absent from the body. -/
structure NumberCardRequest where
  filename : Option Json
  word : Option Json
  cropX : Option Json
  cropY : Option Json
  cropWidth : Option Json
  cropHeight : Option Json

/-- The `for field in required` loop of `process_number_card`: the first
required field absent from the body, checked in source order. -/
def requiredMissing (req : NumberCardRequest) : Option String :=
  if req.filename.isNone then some "filename"
  else if req.word.isNone then some "word"
  else if req.cropX.isNone then some "cropX"
  else if req.cropY.isNone then some "cropY"
  else if req.cropWidth.isNone then some "cropWidth"
  else if req.cropHeight.isNone then some "cropHeight"
  else none

/-- Embedding of the `process_number_card` handler of `admin-server.py`
(lines 139-189).  The crop/background-removal pipeline inside the `try`
block is opaque: `pipeline` is its outcome, `Except.ok` carrying the
base64 payload of the processed PNG. -/
def process_number_card (st : AdminState) (req : NumberCardRequest)
    (pipeline : Except String String) : AdminState × HandlerOutcome :=
  match requiredMissing req with
  | some f => (st, .response 400 (.obj [("error", .str ("Missing field: " ++ f))]))
  | none =>
    match pyStr (req.filename.getD .null) with
    | none => (st, .uncaughtException "TypeError")
    | some filename =>
      if filename ∈ st.uploads then
        match pyUpperAttr (req.word.getD .null) with
        | none => (st, .uncaughtException "AttributeError")
        | some word =>
          match pyInt (req.cropX.getD .null), pyInt (req.cropY.getD .null),
              pyInt (req.cropWidth.getD .null), pyInt (req.cropHeight.getD .null) with
          | some _, some _, some _, some _ =>
            match pipeline with
            | .error e => (st, .response 500 (.obj [("error", .str e)]))
            | .ok preview64 =>
              let preview_filename := pyLower word ++ "_preview.png"
              let st' := { st with processed :=
                if preview_filename ∈ st.processed then st.processed
                else st.processed ++ [preview_filename] }
              (st', .response 200 (.obj [("success", .bool true),
                ("preview", .str ("data:image/png;base64," ++ preview64)),
                ("previewPath", .str ("processed/" ++ preview_filename)),
                ("word", .str word)]))
          | _, _, _, _ => (st, .uncaughtException "ValueError")
      else
        (st, .response 404 (.obj [("error", .str "Image not found")]))

/-- A part of a multipart upload; only the client-supplied filename is
inspected by the handlers. -/
structure FilePart where
  filename : String
deriving Repr, DecidableEq

/-- The multipart body of a `POST /api/process-face-card` request. -/
structure FaceCardRequest where
  image : Option FilePart
  word : Option String

/-- Embedding of the `process_face_card` handler of `admin-server.py`
(lines 240-282); `u` is the random identifier drawn for the card id and
`resp` the hosting service's response to the upload request. -/
def process_face_card (st : AdminState) (req : FaceCardRequest) (env : Env)
    (resp : HttpResponse) (u : Nat) : AdminState × HandlerOutcome :=
  match req.image with
  | none => (st, .response 400 (.obj [("error", .str "No image provided")]))
  | some file =>
    match req.word with
    | none => (st, .response 400 (.obj [("error", .str "No word provided")]))
    | some w =>
      let word := pyUpper w
      if file.filename = "" then
        (st, .response 400 (.obj [("error", .str "No file selected")]))
      else
        let card_id := generate_card_id word "face" u
        match (upload_to_cloudflare env resp).2 with
        | .missingConfig m => (st, .response 500 (.obj [("error", .str m)]))
        | .uploadFailed m => (st, .response 500 (.obj [("error", .str m)]))
        | .success image_url =>
          let cards_data := load_cards st.dataFile
          let new_card : Card := ⟨card_id, word, image_url, "face"⟩
          let updated : Catalog := ⟨cards_data.cards ++ [new_card]⟩
          let st' := save_cards updated st
          (st', .response 200 (.obj [("success", .bool true),
            ("card", cardToJson new_card),
            ("totalCards", .num updated.cards.length)]))

/-- Embedding of the `delete_card` handler of `admin-server.py`
(lines 285-301). -/
def delete_card (st : AdminState) (card_id : String) : AdminState × HandlerOutcome :=
  let cards_data := load_cards st.dataFile
  let original_count := cards_data.cards.length
  let remaining := cards_data.cards.filter (fun c => c.id != card_id)
  if remaining.length = original_count then
    (st, .response 404 (.obj [("error", .str "Card not found")]))
  else
    (save_cards ⟨remaining⟩ st, .response 200 (.obj [("success", .bool true),
      ("totalCards", .num remaining.length)]))

/-- C3.  Delete semantics: when some record's id equals the given id,
`delete_card` removes every matching record, persists the reduced
catalog (one `save_cards` write), and responds success with `totalCards`
equal to the new length; when no record matches it responds 404 and
leaves the state — in particular the catalog file and the write log —
untouched. -/
theorem delete_card_semantics (st : AdminState) (cid : String) :
    ((∃ c ∈ (load_cards st.dataFile).cards, c.id = cid) →
      (delete_card st cid).1.dataFile =
        some ⟨(load_cards st.dataFile).cards.filter (fun c => c.id != cid)⟩ ∧
      (delete_card st cid).1.writeLog =
        st.writeLog ++ [⟨(load_cards st.dataFile).cards.filter (fun c => c.id != cid)⟩] ∧
      (∀ c ∈ (load_cards st.dataFile).cards.filter (fun c => c.id != cid), c.id ≠ cid) ∧
      (delete_card st cid).2 = .response 200 (.obj [("success", .bool true),
        ("totalCards",
          .num ((load_cards st.dataFile).cards.filter (fun c => c.id != cid)).length)])) ∧
    ((∀ c ∈ (load_cards st.dataFile).cards, c.id ≠ cid) →
      (delete_card st cid).1 = st ∧
      (delete_card st cid).2 = .response 404 (.obj [("error", .str "Card not found")])) := by
  constructor
  · rintro ⟨c, hc, hid⟩
    have hne : ((load_cards st.dataFile).cards.filter (fun c => c.id != cid)).length ≠
        (load_cards st.dataFile).cards.length := by
      intro hlen
      have hp := List.filter_length_eq_length.mp hlen c hc
      rw [hid] at hp
      simp at hp
    simp only [delete_card]
    rw [if_neg hne]
    refine ⟨rfl, rfl, ?_, rfl⟩
    intro c' hc'
    have hp := (List.mem_filter.mp hc').2
    simpa using hp
  · intro hall
    have hlen : ((load_cards st.dataFile).cards.filter (fun c => c.id != cid)).length =
        (load_cards st.dataFile).cards.length :=
      List.filter_length_eq_length.mpr (fun a ha => by simpa using hall a ha)
    simp only [delete_card]
    rw [if_pos hlen]
    exact ⟨rfl, rfl⟩

/-- C3 witness: on a concrete 3-card catalog, deleting a present id
yields the 2-card catalog missing exactly that id with `totalCards = 2`
and one persisted write, while deleting an absent id responds 404 and
changes nothing. -/
theorem delete_card_semantics_witness :
    (delete_card ⟨some ⟨[⟨"a-00000000", "A", "u1", "number"⟩,
        ⟨"b-00000000", "B", "u2", "number"⟩,
        ⟨"face-c-00000000", "C", "u3", "face"⟩]⟩, [], [], []⟩ "b-00000000").1.dataFile =
      some ⟨[⟨"a-00000000", "A", "u1", "number"⟩, ⟨"face-c-00000000", "C", "u3", "face"⟩]⟩ ∧
    (delete_card ⟨some ⟨[⟨"a-00000000", "A", "u1", "number"⟩,
        ⟨"b-00000000", "B", "u2", "number"⟩,
        ⟨"face-c-00000000", "C", "u3", "face"⟩]⟩, [], [], []⟩ "b-00000000").2 =
      .response 200 (.obj [("success", .bool true), ("totalCards", .num 2)]) ∧
    (delete_card ⟨some ⟨[⟨"a-00000000", "A", "u1", "number"⟩,
        ⟨"b-00000000", "B", "u2", "number"⟩,
        ⟨"face-c-00000000", "C", "u3", "face"⟩]⟩, [], [], []⟩ "zzz").1 =
      ⟨some ⟨[⟨"a-00000000", "A", "u1", "number"⟩,
        ⟨"b-00000000", "B", "u2", "number"⟩,
        ⟨"face-c-00000000", "C", "u3", "face"⟩]⟩, [], [], []⟩ ∧
    (delete_card ⟨some ⟨[⟨"a-00000000", "A", "u1", "number"⟩,
        ⟨"b-00000000", "B", "u2", "number"⟩,
        ⟨"face-c-00000000", "C", "u3", "face"⟩]⟩, [], [], []⟩ "zzz").2 =
      .response 404 (.obj [("error", .str "Card not found")]) := by
  have hdel := (delete_card_semantics ⟨some ⟨[⟨"a-00000000", "A", "u1", "number"⟩,
    ⟨"b-00000000", "B", "u2", "number"⟩,
    ⟨"face-c-00000000", "C", "u3", "face"⟩]⟩, [], [], []⟩ "b-00000000").1
    ⟨⟨"b-00000000", "B", "u2", "number"⟩, by decide, rfl⟩
  have habs := (delete_card_semantics ⟨some ⟨[⟨"a-00000000", "A", "u1", "number"⟩,
    ⟨"b-00000000", "B", "u2", "number"⟩,
    ⟨"face-c-00000000", "C", "u3", "face"⟩]⟩, [], [], []⟩ "zzz").2 (by decide)
  exact ⟨hdel.1.trans rfl, hdel.2.2.2.trans rfl, habs.1, habs.2⟩

/-- Names a required `process-number-card` field that is absent from the
request body. -/
def namesMissingField (req : NumberCardRequest) (f : String) : Prop :=
  (f = "filename" ∧ req.filename = none) ∨ (f = "word" ∧ req.word = none) ∨
  (f = "cropX" ∧ req.cropX = none) ∨ (f = "cropY" ∧ req.cropY = none) ∨
  (f = "cropWidth" ∧ req.cropWidth = none) ∨ (f = "cropHeight" ∧ req.cropHeight = none)

/-- C6.  Missing-field rejection: when any of the six required fields is
absent, `process_number_card` responds 400 with an error naming a
missing field and performs no side effect: the catalog file, the write
log and both directories are exactly as before. -/
theorem process_number_card_missing_field (st : AdminState) (req : NumberCardRequest)
    (pipeline : Except String String)
    (h : req.filename = none ∨ req.word = none ∨ req.cropX = none ∨
      req.cropY = none ∨ req.cropWidth = none ∨ req.cropHeight = none) :
    (process_number_card st req pipeline).1 = st ∧
    ∃ f, namesMissingField req f ∧
      (process_number_card st req pipeline).2 =
        .response 400 (.obj [("error", .str ("Missing field: " ++ f))]) := by
  obtain ⟨f1, f2, f3, f4, f5, f6⟩ := req
  cases f1 with
  | none => exact ⟨rfl, "filename", Or.inl ⟨rfl, rfl⟩, rfl⟩
  | some v1 =>
    cases f2 with
    | none => exact ⟨rfl, "word", Or.inr (Or.inl ⟨rfl, rfl⟩), rfl⟩
    | some v2 =>
      cases f3 with
      | none => exact ⟨rfl, "cropX", Or.inr (Or.inr (Or.inl ⟨rfl, rfl⟩)), rfl⟩
      | some v3 =>
        cases f4 with
        | none => exact ⟨rfl, "cropY", Or.inr (Or.inr (Or.inr (Or.inl ⟨rfl, rfl⟩))), rfl⟩
        | some v4 =>
          cases f5 with
          | none => exact ⟨rfl, "cropWidth",
              Or.inr (Or.inr (Or.inr (Or.inr (Or.inl ⟨rfl, rfl⟩)))), rfl⟩
          | some v5 =>
            cases f6 with
            | none => exact ⟨rfl, "cropHeight",
                Or.inr (Or.inr (Or.inr (Or.inr (Or.inr ⟨rfl, rfl⟩)))), rfl⟩
            | some v6 =>
              rcases h with h | h | h | h | h | h <;> exact Option.noConfusion h

/-- C6 witness: a request missing only `word` is rejected with status 400
naming `word`, the state untouched. -/
theorem process_number_card_missing_field_witness :
    (process_number_card ⟨none, [], [], []⟩
      ⟨some (.str "x.png"), none, some (.num 1), some (.num 2), some (.num 3),
        some (.num 4)⟩ (.ok "")).1 = ⟨none, [], [], []⟩ ∧
    (process_number_card ⟨none, [], [], []⟩
      ⟨some (.str "x.png"), none, some (.num 1), some (.num 2), some (.num 3),
        some (.num 4)⟩ (.ok "")).2 =
      .response 400 (.obj [("error", .str "Missing field: word")]) := by
  obtain ⟨h1, f, hf, h2⟩ := process_number_card_missing_field ⟨none, [], [], []⟩
    ⟨some (.str "x.png"), none, some (.num 1), some (.num 2), some (.num 3),
      some (.num 4)⟩ (.ok "") (Or.inr (Or.inl rfl))
  rcases hf with ⟨hf1, hh⟩ | ⟨hf1, hh⟩ | ⟨hf1, hh⟩ | ⟨hf1, hh⟩ | ⟨hf1, hh⟩ | ⟨hf1, hh⟩
  · exact Option.noConfusion hh
  · subst hf1; exact ⟨h1, h2⟩
  · exact Option.noConfusion hh
  · exact Option.noConfusion hh
  · exact Option.noConfusion hh
  · exact Option.noConfusion hh

/-- C9 (amended).  The `int()` conversions of the crop fields happen
outside the `try` block: whenever all six required fields are present,
some crop field's value is not convertible to an integer, and the
request does not name a missing temp file (a string `filename` refers to
an existing upload), the handler raises an uncaught exception instead of
returning a JSON error body, and the state — in particular the catalog
— is unchanged. -/
theorem process_number_card_badcrop_uncaught (st : AdminState) (req : NumberCardRequest)
    (pipeline : Except String String)
    (h1 : requiredMissing req = none)
    (h2 : pyInt (req.cropX.getD .null) = none ∨ pyInt (req.cropY.getD .null) = none ∨
      pyInt (req.cropWidth.getD .null) = none ∨ pyInt (req.cropHeight.getD .null) = none)
    (h3 : ∀ s, req.filename = some (.str s) → s ∈ st.uploads) :
    (process_number_card st req pipeline).1 = st ∧
    ∃ m, (process_number_card st req pipeline).2 = .uncaughtException m := by
  have hf : ∃ j, req.filename = some j := by
    cases hfi : req.filename with
    | none => simp [requiredMissing, hfi] at h1
    | some j => exact ⟨j, rfl⟩
  obtain ⟨j, hj⟩ := hf
  cases hpj : pyStr j with
  | none =>
    refine ⟨?_, "TypeError", ?_⟩ <;> simp [process_number_card, h1, hj, hpj]
  | some fn =>
    have hmem : fn ∈ st.uploads := by
      apply h3
      cases j with
      | str s => simp [pyStr] at hpj; rw [hj, hpj]
      | num n => simp [pyStr] at hpj
      | bool b => simp [pyStr] at hpj
      | null => simp [pyStr] at hpj
      | arr xs => simp [pyStr] at hpj
      | obj fs => simp [pyStr] at hpj
    cases hpu : pyUpperAttr (req.word.getD .null) with
    | none =>
      refine ⟨?_, "AttributeError", ?_⟩ <;>
        simp [process_number_card, h1, hj, hpj, hmem, hpu]
    | some word =>
      rcases hx : pyInt (req.cropX.getD .null) with _ | x <;>
        rcases hy : pyInt (req.cropY.getD .null) with _ | y <;>
          rcases hw : pyInt (req.cropWidth.getD .null) with _ | w <;>
            rcases hz : pyInt (req.cropHeight.getD .null) with _ | z <;>
              first
              | (rw [hx, hy, hw, hz] at h2
                 rcases h2 with h2 | h2 | h2 | h2 <;> exact Option.noConfusion h2)
              | (refine ⟨?_, "ValueError", ?_⟩ <;>
                  simp [process_number_card, h1, hj, hpj, hmem, hpu, hx, hy, hw, hz])

/-- C9 witness: a request whose `cropX` is the string `"abc"` and whose
filename names an existing upload makes the handler raise (no JSON
response) and leaves the state unchanged. -/
theorem process_number_card_badcrop_witness :
    (process_number_card ⟨none, [], ["photo.png"], []⟩
      ⟨some (.str "photo.png"), some (.str "DOG"), some (.str "abc"),
        some (.num 0), some (.num 0), some (.num 0)⟩ (.ok "")).1 =
      ⟨none, [], ["photo.png"], []⟩ ∧
    ((process_number_card ⟨none, [], ["photo.png"], []⟩
      ⟨some (.str "photo.png"), some (.str "DOG"), some (.str "abc"),
        some (.num 0), some (.num 0), some (.num 0)⟩ (.ok "")).2).isUncaught = true := by
  obtain ⟨hst, m, hm⟩ := process_number_card_badcrop_uncaught
    ⟨none, [], ["photo.png"], []⟩
    ⟨some (.str "photo.png"), some (.str "DOG"), some (.str "abc"),
      some (.num 0), some (.num 0), some (.num 0)⟩ (.ok "")
    rfl (Or.inl rfl) (by intro s hs; cases hs; exact List.mem_singleton.mpr rfl)
  rw [hm]
  exact ⟨hst, rfl⟩

/-- C9 (counterexample to the claim as stated): with `cropX` not
convertible but the named temp file missing, the handler does not raise:
it returns the 404 `Image not found` JSON error body before reaching the
conversions. -/
theorem process_number_card_badcrop_counterexample :
    pyInt (Json.str "abc") = none ∧
    (process_number_card ⟨none, [], [], []⟩
      ⟨some (.str "photo.png"), some (.str "DOG"), some (.str "abc"),
        some (.num 0), some (.num 0), some (.num 0)⟩ (.ok "")).2 =
      .response 404 (.obj [("error", .str "Image not found")]) ∧
    ((process_number_card ⟨none, [], [], []⟩
      ⟨some (.str "photo.png"), some (.str "DOG"), some (.str "abc"),
        some (.num 0), some (.num 0), some (.num 0)⟩ (.ok "")).2).isUncaught = false :=
  ⟨rfl, rfl, rfl⟩

/-- Helper: upper-casing the empty word yields the empty word. -/
theorem pyUpper_empty : pyUpper "" = "" :=
  rfl

/-- Helper: the id generated for the empty word and the face type is
`face--` followed by the random fragment. -/
theorem generate_card_id_empty_face (u : Nat) :
    generate_card_id "" "face" u = "face--" ++ uuidFirst8 u := by
  apply String.ext
  simp [generate_card_id, pyLower, String.data_append]

/-- C10.  No publish path validates the word: `generate_card_id` embeds
the lowercased word verbatim for every word and card type, and the
`process_face_card` endpoint accepts an empty `word` form field (given a
valid image part and a successful upload), persisting a catalog record
whose `word` is `""` and whose id begins with `face--`. -/
theorem word_unvalidated (word ct : String) (u : Nat) (st : AdminState)
    (env : Env) (resp : HttpResponse) (file : FilePart) (url : String)
    (hf : file.filename ≠ "")
    (hup : (upload_to_cloudflare env resp).2 = .success url) :
    generate_card_id word ct u =
      (if ct = "face" then "face-" else "") ++ pyLower word ++ "-" ++ uuidFirst8 u ∧
    (process_face_card st ⟨some file, some ""⟩ env resp u).1 =
      save_cards ⟨(load_cards st.dataFile).cards ++
        [⟨"face--" ++ uuidFirst8 u, "", url, "face"⟩]⟩ st ∧
    (process_face_card st ⟨some file, some ""⟩ env resp u).2 =
      .response 200 (.obj [("success", .bool true),
        ("card", cardToJson ⟨"face--" ++ uuidFirst8 u, "", url, "face"⟩),
        ("totalCards", .num ((load_cards st.dataFile).cards.length + 1))]) := by
  have hid : generate_card_id (pyUpper "") "face" u = "face--" ++ uuidFirst8 u := by
    rw [pyUpper_empty]; exact generate_card_id_empty_face u
  refine ⟨rfl, ?_, ?_⟩ <;>
    simp [process_face_card, hf, hup, hid, pyUpper_empty, generate_card_id_empty_face,
      save_cards, load_cards]

/-- C10 witness: the face endpoint applied to a concrete valid image part
with an empty word field appends a record with `word = ""` and an id
beginning `face--`. -/
theorem word_unvalidated_witness :
    (process_face_card ⟨none, [], [], []⟩ ⟨some ⟨"art.png"⟩, some ""⟩
        ⟨some "acct42", some "tok", none⟩ ⟨200, "", true, "", "img7", []⟩ 0).2 =
      .response 200 (.obj [("success", .bool true),
        ("card", cardToJson ⟨"face--00000000", "",
          "https://imagedelivery.net/3oZsG34qPq3SIXQhl47vqA/img7/medium", "face"⟩),
        ("totalCards", .num 1)]) := by
  have h := (word_unvalidated "" "face" 0 ⟨none, [], [], []⟩
    ⟨some "acct42", some "tok", none⟩ ⟨200, "", true, "", "img7", []⟩ ⟨"art.png"⟩
    "https://imagedelivery.net/3oZsG34qPq3SIXQhl47vqA/img7/medium"
    (by decide) (by decide)).2.2
  exact h.trans rfl

/-! ## Catalog persistence round-trip

`save_cards` serializes the `{"cards": [...]}` document and overwrites
the catalog file; `load_cards` parses the document back (the textual
pretty-printing and re-parsing is the JSON library boundary and is the
identity on documents).  `jsonToCatalog` decodes a document exactly the
way the endpoints consume a loaded catalog: the `"cards"` key holds the
array, each element carrying the four string fields of a record. -/

/-- Field lookup in a JSON object. -/
def jsonLookup (fields : List (String × Json)) (k : String) : Option Json :=
  match fields with
  | [] => none
  | (key, v) :: rest => if key = k then some v else jsonLookup rest k

/-- Extracts a JSON string value. -/
def asStr : Json → Option String
  | .str s => some s
  | _ => none

/-- Decodes one card record from its JSON object. -/
def jsonToCard (j : Json) : Option Card :=
  match j with
  | .obj fs =>
    match (jsonLookup fs "id").bind asStr, (jsonLookup fs "word").bind asStr,
        (jsonLookup fs "imageUrl").bind asStr, (jsonLookup fs "type").bind asStr with
    | some i, some w, some url, some t => some ⟨i, w, url, t⟩
    | _, _, _, _ => none
  | _ => none

/-- Decodes a list of card records, failing on the first invalid one. -/
def jsonToCards : List Json → Option (List Card)
  | [] => some []
  | j :: rest =>
    match jsonToCard j, jsonToCards rest with
    | some c, some cs => some (c :: cs)
    | _, _ => none

/-- Decodes a whole `{"cards": [...]}` document. -/
def jsonToCatalog (j : Json) : Option Catalog :=
  match j with
  | .obj fs =>
    match jsonLookup fs "cards" with
    | some (.arr xs) => (jsonToCards xs).map Catalog.mk
    | _ => none
  | _ => none

/-- Embedding of `save_cards` at the document level: the catalog file
afterwards holds exactly the serialized document. -/
def save_cards_doc (d : Catalog) (_file : Option Json) : Option Json :=
  some (catalogToJson d)

/-- Embedding of `load_cards` at the document level: the stored document
when the file exists, the empty `{"cards": []}` document otherwise. -/
def load_cards_doc (file : Option Json) : Json :=
  file.getD (.obj [("cards", .arr [])])

/-- C8.  Catalog save/load round-trip: saving any catalog (0, 1 or many
records) and loading it back yields a structurally identical catalog,
with card order and every record field preserved. -/
theorem catalog_roundtrip (d : Catalog) (file : Option Json) :
    jsonToCatalog (load_cards_doc (save_cards_doc d file)) = some d := by
  have hcard : ∀ c : Card, jsonToCard (cardToJson c) = some c := fun c => rfl
  have hlist : ∀ l : List Card, jsonToCards (l.map cardToJson) = some l := by
    intro l
    induction l with
    | nil => rfl
    | cons c t ih => simp [jsonToCards, hcard, ih]
  simp [load_cards_doc, save_cards_doc, catalogToJson, jsonToCatalog, jsonLookup, hlist]
